import Mathlib

/-!
Verification development for the transcript-analysis pipeline of this
repository: `hooks/utils/transcript_analyzer.py` (the `TranscriptAnalyzer`
class) and `hooks/utils/summary_generator.py` (the `SummaryGenerator` class).

The Python code is shallowly embedded as executable Lean definitions.
Modelling conventions, stated once here and referenced below:

* JSON values parsed from transcript lines are modelled by the inductive
  `JSON` (booleans, integers, strings, arrays, objects, null).  JSON floats
  do not occur in any behaviour checked here and are not modelled.
* Python strings are modelled by `String`, manipulated through explicit
  `List Char` helpers.  Case folding, whitespace and digit classification
  are modelled for the ASCII range that the code and all checked behaviours
  use.
* Dictionary access `d.get(k, default)` is `lookupD`; the membership test
  `k in d` is `hasKey`.  In Python, calling `.get` on a non-dict raises and
  `TranscriptAnalyzer.analyze_transcript` then returns the
  `analysis_error` empty analysis; this model totalises such lookups as
  absent keys (no claim below exercises those dynamic-type-error paths,
  and the property checked in `c9_no_keyword_topic` holds on the
  `analysis_error` analysis as well, since it is an empty analysis).
  Likewise `Path(x).name`, `str.lower()` and slicing applied to a
  non-string value raise in Python and are totalised here with neutral
  defaults (`pathNameJ`, `asStrD`, `previewOf`).
* Durations: Python stores minutes as a float rounded to one decimal via
  `round(x, 1)`.  The model computes datetimes in integer microseconds and
  stores the duration exactly as an integer number of TENTHS of a minute
  (`duration_tenths`); `0` corresponds to the Python `0.0` and `55` to
  `5.5` (every result of `round(x, 1)` is the double nearest one such
  tenth, so the encoding is faithful).  The CPython pipeline — the
  correctly rounded float division of `timedelta.total_seconds`, the
  float division by 60, and `round(x, 1)`, which rounds the exact binary
  value of the double to the nearest decimal tenth — is reproduced
  bit-exactly over the integers (`flRound`, `flQ`, `pyRoundTenths`), so
  the model agrees with the program even where binary and exact decimal
  rounding differ (a 3-second difference is `0.1`, not `0.0`).
* Randomness: `random.choice(pool)` (and the already-flipped name prefix
  of the notification hook) is modelled by returning the constructor
  `SummaryOut.choice pre pool` instead of one concrete member, so theorems
  quantify over every possible random outcome.
* The environment switch `CLAUDE_HOOKS_SUMMARY_ENABLED` is passed as an
  explicit `enabled : Bool` argument to the three rendering operations.
-/

/-! ## JSON values -/

mutual
/-- A parsed JSON value, as produced by `json.loads` for one transcript
line.  Arrays and objects carry their own spine types so that decidable
equality can be derived. -/
inductive JSON where
  | null
  | bool (b : Bool)
  | num (n : Int)
  | str (s : String)
  | arr (xs : JSONList)
  | obj (kvs : JSONObj)
deriving DecidableEq, Repr

/-- Spine of a JSON array. -/
inductive JSONList where
  | nil
  | cons (hd : JSON) (tl : JSONList)
deriving DecidableEq, Repr

/-- Spine of a JSON object: ordered key/value pairs (Python dicts preserve
insertion order and `json.loads` keeps the last duplicate key; transcripts
have unique keys, and lookup here returns the first match). -/
inductive JSONObj where
  | nil
  | cons (key : String) (val : JSON) (tl : JSONObj)
deriving DecidableEq, Repr
end

/-- Convert an array spine to a `List`. -/
def JSONList.toList : JSONList → List JSON
  | .nil => []
  | .cons h t => h :: t.toList

/-- Build an array value from a `List` (used to state concrete inputs). -/
def jarr (l : List JSON) : JSON := .arr (l.foldr JSONList.cons .nil)

/-- Build an object value from a pair list (used to state concrete inputs). -/
def jobj (l : List (String × JSON)) : JSON :=
  .obj (l.foldr (fun kv acc => JSONObj.cons kv.1 kv.2 acc) .nil)

/-- First value stored under `key`, if any. -/
def JSONObj.lookupKey : JSONObj → String → Option JSON
  | .nil, _ => none
  | .cons k v t, key => if k = key then some v else t.lookupKey key

/-- Model of `d.get(k)` returning `None`-as-`none` when absent (and when the
receiver is not a dict; see the module comment on totalisation). -/
def lookupJ : JSON → String → Option JSON
  | .obj kvs, k => kvs.lookupKey k
  | _, _ => none

/-- Model of `d.get(k, default)`. -/
def lookupD (j : JSON) (k : String) (d : JSON) : JSON := (lookupJ j k).getD d

/-- Model of the Python membership test `k in d`. -/
def hasKey (j : JSON) (k : String) : Bool := (lookupJ j k).isSome

/-- Model of `isinstance(x, dict)`. -/
def isObj : JSON → Bool
  | .obj _ => true
  | _ => false

/-- The string payload when `isinstance(x, str)`, else a default (the call
sites that use the default on a non-string raise in Python; see the module
comment). -/
def asStrD (j : JSON) (d : String) : String :=
  match j with
  | .str s => s
  | _ => d

/-- Model of Python truthiness for the JSON values above. -/
def pyTruthy : JSON → Bool
  | .null => false
  | .bool b => b
  | .num n => n != 0
  | .str s => s != ""
  | .arr .nil => false
  | .arr _ => true
  | .obj .nil => false
  | .obj _ => true

/-! ## String helpers (ASCII models of the Python string methods used) -/

/-- ASCII model of `str.lower` on one character. -/
def chLower (c : Char) : Char :=
  if 'A' ≤ c ∧ c ≤ 'Z' then Char.ofNat (c.toNat + 32) else c

/-- ASCII model of `str.lower`. -/
def strLower (s : String) : String := (s.data.map chLower).asString

/-- Contiguous-sublist test on characters: `listHasSub cs pat` models the
Python containment test `pat in cs`. -/
def listHasSub : List Char → List Char → Bool
  | cs, pat =>
    if pat.isPrefixOf cs then true
    else match cs with
      | [] => false
      | _ :: t => listHasSub t pat

/-- Model of the Python substring test `pat in s`. -/
def strContains (s pat : String) : Bool := listHasSub s.data pat.data

/-- The whitespace characters stripped by Python `str.strip`, ASCII range. -/
def isPySpace (c : Char) : Bool :=
  c == ' ' || c == '\t' || c == '\n' || c == '\r' || c == Char.ofNat 11 || c == Char.ofNat 12

/-- Model of `s.strip()`. -/
def pyStrip (s : String) : String :=
  (((s.data.dropWhile isPySpace).reverse.dropWhile isPySpace).reverse).asString

/-- Model of `s.rstrip()` on a character list. -/
def pyRstripList (cs : List Char) : List Char :=
  (cs.reverse.dropWhile isPySpace).reverse

/-- Model of `s.rfind(c)`: greatest index holding `c`, or `-1`. -/
def listRfind (cs : List Char) (c : Char) : Int :=
  match cs with
  | [] => -1
  | a :: t =>
    let r := listRfind t c
    if 0 ≤ r then r + 1
    else if a == c then 0 else -1

/-- Model of the slice `s[:n]`. -/
def pyTake (s : String) (n : Nat) : String := (s.data.take n).asString

/-- Model of `sep.join(parts)`. -/
def joinSep (sep : String) : List String → String
  | [] => ""
  | [x] => x
  | x :: xs => x ++ sep ++ joinSep sep xs

/-- Model of `s.startswith(p)`. -/
def strStartsWith (s p : String) : Bool := p.data.isPrefixOf s.data

/-- Decimal digits of a natural number (fuel-based so that it reduces in the
kernel; the fuel `n + 1` always suffices). -/
def natToStrAux : Nat → Nat → List Char
  | 0, _ => []
  | fuel + 1, n =>
    if n < 10 then [Char.ofNat (48 + n)]
    else natToStrAux fuel (n / 10) ++ [Char.ofNat (48 + n % 10)]

/-- Model of Python `str(n)` for a non-negative integer count. -/
def natToStr (n : Nat) : String := (natToStrAux (n + 1) n).asString

/-- Model of `PurePosixPath(s)` component splitting at `/`. -/
def splitSlash : List Char → List (List Char)
  | [] => [[]]
  | c :: t =>
    let r := splitSlash t
    if c == '/' then [] :: r
    else match r with
      | h :: rs => (c :: h) :: rs
      | [] => [[c]]

/-- Model of `Path(s).name` for POSIX paths: the last component after
dropping the empty and single-dot components that `pathlib` parsing
discards (`..` components are kept, as in `pathlib`). -/
def pathName (s : String) : String :=
  ((((splitSlash s.data).filter
    (fun c => decide (c ≠ [] ∧ c ≠ ['.']))).getLastD [])).asString

/-- `Path(x).name` applied to a JSON value; a non-string raises `TypeError`
in Python (totalised here to `""`, see the module comment). -/
def pathNameJ : JSON → String
  | .str s => pathName s
  | _ => ""

/-! ## Python `str`/`repr` of JSON values (used for error messages) -/

/-- The apostrophe character, kept out of string literals. -/
def sqChar : Char := Char.ofNat 39

/-- Escapes applied inside a Python string repr with delimiter `q`
(printable-ASCII model). -/
def reprEsc (q c : Char) : String :=
  if c == '\\' then "\\\\"
  else if c == '\n' then "\\n"
  else if c == '\r' then "\\r"
  else if c == '\t' then "\\t"
  else if c == q then "\\" ++ String.singleton c
  else String.singleton c

/-- Model of Python `repr` on a string: single-quoted unless the string
contains a single quote but no double quote. -/
def pyReprOfStr (s : String) : String :=
  let q := if s.data.contains sqChar && !(s.data.contains '"') then '"' else sqChar
  String.singleton q ++ s.data.foldr (fun c acc => reprEsc q c ++ acc) "" ++ String.singleton q

/-- Model of Python `str(n)` on integers. -/
def intToStr (n : Int) : String :=
  if n < 0 then "-" ++ natToStr n.natAbs else natToStr n.natAbs

mutual
/-- Model of Python `str`/`repr` on a JSON value (as produced by
`str(tool_result)` on a correlated tool result). -/
def pyRepr : JSON → String
  | .null => "None"
  | .bool b => if b then "True" else "False"
  | .num n => intToStr n
  | .str s => pyReprOfStr s
  | .arr xs => "[" ++ pyReprList xs ++ "]"
  | .obj kvs => "\x7b" ++ pyReprObj kvs ++ "\x7d"

/-- Comma-joined reprs of array elements. -/
def pyReprList : JSONList → String
  | .nil => ""
  | .cons h .nil => pyRepr h
  | .cons h t => pyRepr h ++ ", " ++ pyReprList t

/-- Comma-joined `key: value` reprs of object entries. -/
def pyReprObj : JSONObj → String
  | .nil => ""
  | .cons k v .nil => pyReprOfStr k ++ ": " ++ pyRepr v
  | .cons k v t => pyReprOfStr k ++ ": " ++ pyRepr v ++ ", " ++ pyReprObj t
end

/-! ## Timestamps and duration (`TranscriptAnalyzer._calculate_duration`)

`datetime.fromisoformat` (Python 3.11) is modelled for the grammar
`YYYY-MM-DD[<sep>HH[:MM[:SS[.ffffff]]][(+|-)HH[:MM[:SS]]]]` over the
proleptic Gregorian calendar with full date/time range validation, the
subset relevant to transcript timestamps; `<sep>` is any single character
and a fraction may use `.` or `,` with digits beyond microseconds ignored,
as in CPython.  A parsed datetime is an integer count of microseconds
(offset-aware values are normalised to UTC), paired with its awareness
flag: Python raises `TypeError` when subtracting a naive from an aware
datetime, which `_calculate_duration` catches, returning `0.0`. -/

/-- Numeric value of an ASCII digit. -/
def digitVal (c : Char) : Option Nat :=
  if c.isDigit then some (c.toNat - 48) else none

/-- Two-digit field. -/
def parse2 (a b : Char) : Option Nat := do
  let x ← digitVal a
  let y ← digitVal b
  pure (10 * x + y)

/-- Four-digit field. -/
def parse4 (a b c d : Char) : Option Nat := do
  let x ← parse2 a b
  let y ← parse2 c d
  pure (100 * x + y)

/-- Gregorian leap year. -/
def isLeap (y : Nat) : Bool := (y % 4 == 0 && y % 100 != 0) || y % 400 == 0

/-- Days in a month of the proleptic Gregorian calendar. -/
def daysInMonth (y m : Nat) : Nat :=
  if m = 2 then (if isLeap y then 29 else 28)
  else if m = 4 ∨ m = 6 ∨ m = 9 ∨ m = 11 then 30
  else 31

/-- Day number of a valid Gregorian date (days since 0000-03-01; only
differences are used).  Standard era/year-of-era formula; valid for
`1 ≤ y ≤ 9999`, `1 ≤ m ≤ 12`. -/
def daysFromCivil (y m d : Nat) : Nat :=
  let ys := if m ≤ 2 then y - 1 else y
  let era := ys / 400
  let yoe := ys % 400
  let mp := (m + 9) % 12
  let doy := (153 * mp + 2) / 5 + d - 1
  let doe := yoe * 365 + yoe / 4 - yoe / 100 + doy
  era * 146097 + doe

/-- Microseconds from a fraction field: up to six digits are significant,
further digits are ignored (CPython behaviour); at least one digit. -/
def fracMicros (ds : List Char) : Option Nat :=
  if ds = [] then none
  else if ds.all Char.isDigit then
    some (((ds.take 6) ++ List.replicate (6 - ds.length) '0').foldl
      (fun acc c => 10 * acc + (c.toNat - 48)) 0)
  else none

/-- Split a time string at the first `+` or `-` (the UTC offset sign). -/
def splitAtSign : List Char → List Char × Option (Char × List Char)
  | [] => ([], none)
  | c :: t =>
    if c == '+' || c == '-' then ([], some (c, t))
    else
      let (a, r) := splitAtSign t
      (c :: a, r)

/-- Parse `HH`, `HH:MM`, `HH:MM:SS` or `HH:MM:SS.ffffff`, validated. -/
def parseTimePart : List Char → Option (Nat × Nat × Nat × Nat)
  | [h1, h2] => do
    let h ← parse2 h1 h2
    if h ≤ 23 then pure (h, 0, 0, 0) else none
  | [h1, h2, ':', m1, m2] => do
    let h ← parse2 h1 h2
    let mi ← parse2 m1 m2
    if h ≤ 23 ∧ mi ≤ 59 then pure (h, mi, 0, 0) else none
  | h1 :: h2 :: ':' :: m1 :: m2 :: ':' :: s1 :: s2 :: rest => do
    let h ← parse2 h1 h2
    let mi ← parse2 m1 m2
    let s ← parse2 s1 s2
    if h ≤ 23 ∧ mi ≤ 59 ∧ s ≤ 59 then
      match rest with
      | [] => pure (h, mi, s, 0)
      | c :: ds =>
        if c == '.' || c == ',' then do
          let mc ← fracMicros ds
          pure (h, mi, s, mc)
        else none
    else none
  | _ => none

/-- Parse a UTC offset body `HH`, `HH:MM` or `HH:MM:SS` into microseconds. -/
def parseOffsetPart : List Char → Option Int
  | [h1, h2] => do
    let h ← parse2 h1 h2
    if h ≤ 23 then pure ((h : Int) * 3600000000) else none
  | [h1, h2, ':', m1, m2] => do
    let h ← parse2 h1 h2
    let mi ← parse2 m1 m2
    if h ≤ 23 ∧ mi ≤ 59 then pure ((h : Int) * 3600000000 + (mi : Int) * 60000000) else none
  | [h1, h2, ':', m1, m2, ':', s1, s2] => do
    let h ← parse2 h1 h2
    let mi ← parse2 m1 m2
    let s ← parse2 s1 s2
    if h ≤ 23 ∧ mi ≤ 59 ∧ s ≤ 59 then
      pure ((h : Int) * 3600000000 + (mi : Int) * 60000000 + (s : Int) * 1000000)
    else none
  | _ => none

/-- Model of `datetime.fromisoformat`: `some (aware, microseconds)` on the
grammar above, `none` where CPython raises `ValueError`. -/
def parseTimestamp (s : String) : Option (Bool × Int) :=
  match s.data with
  | y1 :: y2 :: y3 :: y4 :: '-' :: mo1 :: mo2 :: '-' :: d1 :: d2 :: rest => do
    let y ← parse4 y1 y2 y3 y4
    let mo ← parse2 mo1 mo2
    let d ← parse2 d1 d2
    if 1 ≤ y ∧ 1 ≤ mo ∧ mo ≤ 12 ∧ 1 ≤ d ∧ d ≤ daysInMonth y mo then
      let base : Int := (daysFromCivil y mo d : Int) * 86400000000
      match rest with
      | [] => some (false, base)
      | _sep :: tc =>
        let (tp, off) := splitAtSign tc
        do
          let (h, mi, sec, mc) ← parseTimePart tp
          let t := base + (h : Int) * 3600000000 + (mi : Int) * 60000000 +
            (sec : Int) * 1000000 + (mc : Int)
          match off with
          | none => some (false, t)
          | some (sgn, oc) => do
            let om ← parseOffsetPart oc
            some (true, t - (if sgn == '-' then -om else om))
    else none
  | _ => none

/-- Model of `s.replace('Z', '+00:00')` (every occurrence, as `str.replace`
replaces all). -/
def replaceZ (s : String) : String :=
  (s.data.foldr
    (fun c acc => if c == 'Z' then '+' :: '0' :: '0' :: ':' :: '0' :: '0' :: acc else c :: acc)
    []).asString

/-- Round-to-nearest of `num / den` (`den > 0`) with ties to the even
integer, on integers (`fdiv`/`fmod` are floor-based).  This is the tie
rule of both IEEE-754 rounding and CPython `round`. -/
def divRoundHalfEven (num den : Int) : Int :=
  let q := num.fdiv den
  let r := num.fmod den
  if 2 * r < den then q
  else if den < 2 * r then q + 1
  else if q % 2 = 0 then q else q + 1

/-- `natRHEdiv num den`: round-half-to-even of `num / den` on naturals. -/
def natRHEdiv (num den : Nat) : Nat :=
  let q := num / den
  let r := num % den
  if 2 * r < den then q
  else if den < 2 * r then q + 1
  else if q % 2 = 0 then q else q + 1

/-- Fuel-based floor of the base-2 logarithm (fuel `n` always suffices,
and the recursion depth is only the bit length, so it reduces in the
kernel). -/
def log2fuel : Nat → Nat → Nat
  | 0, _ => 0
  | fuel + 1, n => if n < 2 then 0 else 1 + log2fuel fuel (n / 2)

/-- Floor of the base-2 logarithm of a positive natural. -/
def natLog2 (n : Nat) : Nat := log2fuel n n

/-- The IEEE-754 double nearest the positive rational `n / d` (53-bit
significand, round-to-nearest, ties to even): the result `(m, p)` denotes
the value `m * 2 ^ p` with `2 ^ 52 ≤ m < 2 ^ 53`.  Valid on the normal
range of doubles, which covers every value a parseable timestamp pair can
produce (between about `10 ^ -8` and `10 ^ 10` in magnitude). -/
def flRound (n d : Nat) : Nat × Int :=
  let k : Int := (natLog2 n : Int) - (natLog2 d : Int)
  let e : Int :=
    if (if 0 ≤ k then d * 2 ^ k.toNat ≤ n else d ≤ n * 2 ^ (-k).toNat) then k else k - 1
  let shift : Int := 52 - e
  let m :=
    if 0 ≤ shift then natRHEdiv (n * 2 ^ shift.toNat) d
    else natRHEdiv n (d * 2 ^ (-shift).toNat)
  if m = 2 ^ 53 then (2 ^ 52, e - 51) else (m, e - 52)

/-- The correctly rounded double of `n / d` with sign (CPython int/int and
float/int true division are correctly rounded). -/
def flQ (n : Int) (d : Nat) : Int × Int :=
  if n = 0 then (0, 0)
  else
    let (m, p) := flRound n.natAbs d
    (if n < 0 then -(m : Int) else (m : Int), p)

/-- Model of `round((end_time - start_time).total_seconds() / 60, 1)` for
a difference of `delta` microseconds, in tenths of a minute.  It follows
CPython bit-exactly: `total_seconds()` is one correctly rounded float
division of the exact microsecond total by `10 ^ 6`, the `/ 60` is a
second correctly rounded float division, and `round(x, 1)` rounds the
EXACT BINARY value of the resulting double to the nearest decimal tenth
(a tie arises only when that double is an exactly representable odd
multiple of 0.05, i.e. a quarter such as 0.25, and then goes to the even
tenth).  Hence a 3-second difference gives 1 tenth (`0.1`: the double of
0.05 lies just above the tie) and a 15-second difference gives 2 tenths
(`0.2`: an exact tie at 0.25), matching Python where exact decimal
rounding of the difference would not. -/
def pyRoundTenths (delta : Int) : Int :=
  if delta = 0 then 0
  else
    let (m1, p1) := flQ delta 1000000
    let (m2, p2) := flQ (m1 * ((2 ^ (max p1 0).toNat : Nat) : Int))
      (60 * 2 ^ (max (-p1) 0).toNat)
    if 0 ≤ p2 then 10 * m2 * ((2 ^ p2.toNat : Nat) : Int)
    else divRoundHalfEven (10 * m2) ((2 ^ (-p2).toNat : Nat) : Int)

/-- Model of `TranscriptAnalyzer._calculate_duration`, in tenths of a
minute (see the module comment).  The Python `try` block converts every
failure — unparsable or non-string timestamps, and aware/naive mixing — to
`0.0`. -/
def calculate_duration (timestamps : List JSON) : Int :=
  if timestamps.length < 2 then 0
  else
    match timestamps.head?, timestamps.getLast? with
    | some (.str s0), some (.str s1) =>
      match parseTimestamp (replaceZ s0), parseTimestamp (replaceZ s1) with
      | some (a0, t0), some (a1, t1) =>
        if a0 = a1 then pyRoundTenths (t1 - t0) else 0
      | _, _ => 0
    | _, _ => 0

/-! ## Data model (`transcript_analyzer.py` dataclasses) -/

/-- `ToolEvent`: one assistant-issued tool invocation, correlated with its
result.  Dynamic (`Any`-typed) fields stay as `JSON`. -/
structure ToolEvent where
  tool_name : JSON
  tool_input : JSON
  tool_result : JSON
  success : Bool
  timestamp : String
  error_message : Option String
deriving DecidableEq, Repr

/-- `FileOperation`: derived from a file-tool `ToolEvent`. -/
structure FileOperation where
  operation : String
  file_path : JSON
  success : Bool
  content_preview : Option JSON
deriving DecidableEq, Repr

/-- `BashCommand`: derived from a `Bash` `ToolEvent`. -/
structure BashCommand where
  command : JSON
  success : Bool
  stdout : JSON
  stderr : JSON
  description : JSON
deriving DecidableEq, Repr

/-- `SessionAnalysis`: the aggregate produced per transcript.
`duration_tenths` stores the rounded duration in tenths of a minute and
`session_id` stays a `JSON` value because the Python field is assigned the
raw `event['sessionId']` (the sentinels are strings). -/
structure SessionAnalysis where
  session_id : JSON
  duration_tenths : Int
  user_messages : List String
  tool_events : List ToolEvent
  file_operations : List FileOperation
  bash_commands : List BashCommand
  errors : List String
  assistant_responses : List String
  key_accomplishments : List String
  current_context : String
deriving DecidableEq, Repr

/-! ## Tool-result correlation (`TranscriptAnalyzer._extract_tool_event`) -/

/-- The tool-name set `self.file_operation_tools`. -/
def fileOperationTools : List JSON := [.str "Read", .str "Write", .str "Edit", .str "MultiEdit"]

/-- The tool-name set `self.research_tools`. -/
def researchTools : List JSON := [.str "WebFetch", .str "WebSearch", .str "Grep", .str "Glob", .str "LS"]

/-- The tool-name set `self.code_tools` (declared by the class; not used by
any behaviour below). -/
def codeTools : List JSON := [.str "Write", .str "Edit", .str "MultiEdit", .str "Bash"]

/-- One outer-loop iteration of the correlation scan: for a user-typed
event whose message is a dict with list content, the `content` of the
first item whose `tool_use_id` equals `tool_id` (an item must be a dict). -/
def eventMatch (tool_id : JSON) (event : JSON) : Option JSON :=
  if lookupD event "type" JSON.null = JSON.str "user" then
    match lookupJ event "message" with
    | some (JSON.obj kvs) =>
      match lookupD (JSON.obj kvs) "content" JSON.null with
      | JSON.arr items =>
        (items.toList.find? fun item =>
            isObj item && (lookupD item "tool_use_id" JSON.null == tool_id)).map
          fun item => lookupD item "content" (JSON.str "")
      | _ => none
    | _ => none
  else none

/-- `isinstance(tool_result, dict) and tool_result.get('is_error', False)`
(the flag is tested for truthiness). -/
def isErrObj : JSON → Bool
  | JSON.obj kvs => pyTruthy (lookupD (JSON.obj kvs) "is_error" (JSON.bool false))
  | _ => false

/-- Mutable scan state of `_extract_tool_event`: `tool_result`, `success`
and `error_message` as updated across outer-loop iterations. -/
structure ToolScan where
  tool_result : JSON
  success : Bool
  error_message : Option String
deriving DecidableEq, Repr

/-- One outer-loop step: the inner `break` leaves the outer loop running,
so a later matching event overwrites `tool_result`; `success` and
`error_message`, once set by an erroring match, are never reset. -/
def scanStep (tool_id : JSON) (st : ToolScan) (event : JSON) : ToolScan :=
  match eventMatch tool_id event with
  | some r =>
    if isErrObj r then { tool_result := r, success := false, error_message := some (pyRepr r) }
    else { st with tool_result := r }
  | none => st

/-- Model of `TranscriptAnalyzer._extract_tool_event` (always returns an
event; the Python `if tool_event:` guard is vacuous on a dataclass). -/
def extract_tool_event (tool_item : JSON) (all_events : List JSON) : ToolEvent :=
  let tool_id := lookupD tool_item "id" (JSON.str "")
  let st := all_events.foldl (scanStep tool_id)
    { tool_result := JSON.null, success := true, error_message := none }
  { tool_name := lookupD tool_item "name" (JSON.str ""),
    tool_input := lookupD tool_item "input" (jobj []),
    tool_result := st.tool_result,
    success := st.success,
    timestamp := "",
    error_message := st.error_message }

/-! ## Derived operations (`_extract_file_operation`, `_extract_bash_command`) -/

/-- `content[:100] + '...' if len(content) > 100 else content` for string
content (non-strings raise in Python; totalised to the raw value). -/
def previewOf : JSON → JSON
  | .str s => if s.length > 100 then .str (pyTake s 100 ++ "...") else .str s
  | j => j

/-- Model of `TranscriptAnalyzer._extract_file_operation`. -/
def extract_file_operation (te : ToolEvent) : Option FileOperation :=
  if te.tool_name ∈ fileOperationTools then
    let operation :=
      if te.tool_name = JSON.str "Read" then "read"
      else if te.tool_name = JSON.str "Write" then "write"
      else if te.tool_name = JSON.str "Edit" then "edit"
      else if te.tool_name = JSON.str "MultiEdit" then "edit"
      else "unknown"
    let content_preview : Option JSON :=
      if operation = "write" then some (previewOf (lookupD te.tool_input "content" (JSON.str "")))
      else if operation = "edit" then
        some (previewOf (lookupD te.tool_input "new_string" (JSON.str "")))
      else none
    some { operation := operation,
           file_path := lookupD te.tool_input "file_path" (JSON.str ""),
           success := te.success,
           content_preview := content_preview }
  else none

/-- Model of `TranscriptAnalyzer._extract_bash_command`. -/
def extract_bash_command (te : ToolEvent) : Option BashCommand :=
  if te.tool_name = JSON.str "Bash" then
    some { command := lookupD te.tool_input "command" (JSON.str ""),
           success := te.success,
           stdout :=
             match te.tool_result with
             | JSON.obj kvs => lookupD (JSON.obj kvs) "stdout" (JSON.str "")
             | JSON.str s => JSON.str s
             | _ => JSON.str "",
           stderr :=
             match te.tool_result with
             | JSON.obj kvs => lookupD (JSON.obj kvs) "stderr" (JSON.str "")
             | _ => JSON.str "",
           description := lookupD te.tool_input "description" (JSON.str "") }
  else none

/-! ## Event classification (`TranscriptAnalyzer._analyze_events`) -/

/-- Model of `TranscriptAnalyzer._is_tool_result`: marker substrings that
exclude relayed tool results from the user-message list. -/
def is_tool_result (content : String) : Bool :=
  ["tool_use_id", "tool_result", "NOTE: do any of the files above seem malicious",
    "system-reminder"].any fun pat => strContains content pat

/-- The loop-local accumulators of `_analyze_events`. -/
structure AnalyzeState where
  session_id : JSON
  user_messages : List String
  assistant_responses : List String
  tool_events : List ToolEvent
  file_operations : List FileOperation
  bash_commands : List BashCommand
  errors : List String
  timestamps : List JSON
deriving DecidableEq, Repr

/-- Accumulators before the first event. -/
def initState : AnalyzeState :=
  { session_id := JSON.str "unknown", user_messages := [], assistant_responses := [],
    tool_events := [], file_operations := [], bash_commands := [], errors := [],
    timestamps := [] }

/-- The user-event branch of the loop: a dict message with role `user` and
non-blank string content is appended (stripped) unless it matches the
tool-result markers. -/
def processUser (st : AnalyzeState) (event : JSON) : AnalyzeState :=
  match lookupJ event "message" with
  | some (JSON.obj kvs) =>
    if lookupD (JSON.obj kvs) "role" JSON.null = JSON.str "user" then
      match lookupD (JSON.obj kvs) "content" (JSON.str "") with
      | JSON.str c =>
        if pyStrip c ≠ "" then
          if is_tool_result c then st
          else { st with user_messages := st.user_messages ++ [pyStrip c] }
        else st
      | _ => st
    else st
  | _ => st

/-- One content item of an assistant message: `tool_use` items become
`ToolEvent`s (then classified into file operations or bash commands), and
non-blank `text` items are appended to the assistant responses. -/
def processItem (all_events : List JSON) (st : AnalyzeState) (item : JSON) : AnalyzeState :=
  match item with
  | JSON.obj kvs =>
    let it := JSON.obj kvs
    if lookupD it "type" JSON.null = JSON.str "tool_use" then
      let te := extract_tool_event it all_events
      let st1 := { st with tool_events := st.tool_events ++ [te] }
      if te.tool_name ∈ fileOperationTools then
        match extract_file_operation te with
        | some fo => { st1 with file_operations := st1.file_operations ++ [fo] }
        | none => st1
      else if te.tool_name = JSON.str "Bash" then
        match extract_bash_command te with
        | some bc => { st1 with bash_commands := st1.bash_commands ++ [bc] }
        | none => st1
      else st1
    else if lookupD it "type" JSON.null = JSON.str "text" then
      let text := pyStrip (asStrD (lookupD it "text" (JSON.str "")) "")
      if text ≠ "" then { st with assistant_responses := st.assistant_responses ++ [text] }
      else st
    else st
  | _ => st

/-- The assistant-event branch: iterate the list-typed message content. -/
def processAssistant (all_events : List JSON) (st : AnalyzeState) (event : JSON) : AnalyzeState :=
  match lookupJ event "message" with
  | some (JSON.obj kvs) =>
    match lookupD (JSON.obj kvs) "content" (jarr []) with
    | JSON.arr items => items.toList.foldl (processItem all_events) st
    | _ => st
  | _ => st

/-- The system-event branch: string content mentioning `error` or `failed`
(case-insensitively) is recorded verbatim. -/
def processSystem (st : AnalyzeState) (event : JSON) : AnalyzeState :=
  match lookupD event "content" (JSON.str "") with
  | JSON.str c =>
    if strContains (strLower c) "error" || strContains (strLower c) "failed" then
      { st with errors := st.errors ++ [c] }
    else st
  | _ => st

/-- The `if`/`elif` dispatch on the `type` discriminator of one event. -/
def dispatchEvent (all_events : List JSON) (st : AnalyzeState) (event : JSON) : AnalyzeState :=
  if lookupD event "type" (JSON.str "") == JSON.str "user" && hasKey event "message" then
    processUser st event
  else if lookupD event "type" (JSON.str "") == JSON.str "assistant" && hasKey event "message" then
    processAssistant all_events st event
  else if lookupD event "type" (JSON.str "") == JSON.str "system" then processSystem st event
  else st

/-- One iteration of the event loop of `_analyze_events`: collect a truthy
timestamp, overwrite the session id whenever the `sessionId` key is
present, then dispatch on the `type` discriminator. -/
def processEvent (all_events : List JSON) (st0 : AnalyzeState) (event : JSON) : AnalyzeState :=
  let timestamp := lookupD event "timestamp" (JSON.str "")
  let st1 :=
    if pyTruthy timestamp then { st0 with timestamps := st0.timestamps ++ [timestamp] } else st0
  let st2 :=
    match lookupJ event "sessionId" with
    | some v => { st1 with session_id := v }
    | none => st1
  dispatchEvent all_events st2 event

/-- The accumulators after the whole event loop. -/
def finalState (events : List JSON) : AnalyzeState :=
  events.foldl (processEvent events) initState

/-- Model of `TranscriptAnalyzer._identify_accomplishments`. -/
def identify_accomplishments (file_ops : List FileOperation) (bash_cmds : List BashCommand)
    (tool_events : List ToolEvent) : List String :=
  let files_created := file_ops.filter fun op => op.operation == "write" && op.success
  let files_modified := file_ops.filter fun op => op.operation == "edit" && op.success
  let successful := bash_cmds.filter (·.success)
  let test_commands := successful.filter fun c => strContains (strLower (asStrD c.command "")) "test"
  let build_commands := successful.filter fun c =>
    ["build", "compile", "npm", "yarn"].any fun k => strContains (strLower (asStrD c.command "")) k
  let research_used := tool_events.filter fun e => e.tool_name ∈ researchTools
  (if files_created ≠ [] then ["Created " ++ natToStr files_created.length ++ " file(s)"] else []) ++
  (if files_modified ≠ [] then ["Modified " ++ natToStr files_modified.length ++ " file(s)"] else []) ++
  (if successful ≠ [] then
    (if test_commands ≠ [] then ["Ran tests"] else []) ++
    (if build_commands ≠ [] then ["Executed build commands"] else [])
  else []) ++
  (if research_used ≠ [] then ["Conducted code research"] else [])

/-- Model of `TranscriptAnalyzer._generate_current_context`. -/
def generate_current_context (user_messages : List String) (file_ops : List FileOperation)
    (_bash_cmds : List BashCommand) : String :=
  if user_messages = [] then "Working on current task"
  else
    let last_message := user_messages.getLastD ""
    let recent_files :=
      if file_ops ≠ [] then
        (file_ops.drop (file_ops.length - 3)).map fun op => pathNameJ op.file_path
      else []
    let context_parts : List String :=
      (if last_message ≠ "" then
        [if last_message.length > 50 then pyTake last_message 50 ++ "..." else last_message]
      else []) ++
      (if recent_files ≠ [] then ["working on " ++ joinSep ", " recent_files] else [])
    if context_parts ≠ [] then joinSep " - " context_parts else "Working on current task"

/-- Model of `TranscriptAnalyzer._analyze_events`. -/
def analyze_events (events : List JSON) : SessionAnalysis :=
  let st := finalState events
  { session_id := st.session_id,
    duration_tenths := calculate_duration st.timestamps,
    user_messages := st.user_messages,
    tool_events := st.tool_events,
    file_operations := st.file_operations,
    bash_commands := st.bash_commands,
    errors := st.errors,
    assistant_responses := st.assistant_responses,
    key_accomplishments := identify_accomplishments st.file_operations st.bash_commands st.tool_events,
    current_context := generate_current_context st.user_messages st.file_operations st.bash_commands }

/-- Model of `TranscriptAnalyzer._empty_analysis`. -/
def empty_analysis (session_id : JSON) : SessionAnalysis :=
  { session_id := session_id, duration_tenths := 0, user_messages := [], tool_events := [],
    file_operations := [], bash_commands := [], errors := [], assistant_responses := [],
    key_accomplishments := [], current_context := "Unknown context" }

/-- A transcript source: `none` models a path that does not exist; `some
lines` models the readable file, where each line is `some event` when it
parses as JSON and `none` when it is blank or unparsable (such lines are
skipped by `_parse_transcript_file`). -/
def TranscriptSource : Type := Option (List (Option JSON))

/-- Model of `TranscriptAnalyzer.analyze_transcript`.  The `except` branch
producing an `analysis_error` empty analysis corresponds to the
dynamic-type errors totalised in this model (module comment). -/
def analyze_transcript (source : TranscriptSource) : SessionAnalysis :=
  match source with
  | none => empty_analysis (JSON.str "transcript_not_found")
  | some lines => analyze_events (lines.filterMap id)

/-! ## Summary generator (`summary_generator.py`) -/

/-- The result of one rendering operation: either a deterministic string,
or `choice pre pool`, modelling `pre + random.choice(pool)` (so a theorem
about a `choice` value covers every random outcome). -/
inductive SummaryOut where
  | str (s : String)
  | choice (pre : String) (pool : List String)
deriving DecidableEq, Repr

/-- `self.fallback_stop_messages`. -/
def fallback_stop_messages : List String :=
  ["Work complete!", "All done!", "Task finished!", "Job complete!", "Ready for next task!"]

/-- `self.fallback_notification_messages`. -/
def fallback_notification_messages : List String :=
  ["Your agent needs your input", "Waiting for your response", "Input required to continue"]

/-- `self.fallback_subagent_messages`. -/
def fallback_subagent_messages : List String :=
  ["Subagent Complete", "Subagent task finished", "Background work done"]

/-- Model of `SummaryGenerator._truncate_for_tts`.  `self.max_tts_length`
is 80 and the Python guard compares `rfind` against `80 * 0.7`, which
evaluates to exactly `56.0` in IEEE double arithmetic (the exact product
`56 - 2^-48` is a tie, rounded to the even neighbour `56.0`), so an
integer index passes the guard exactly when it exceeds 56. -/
def truncate_for_tts (text : String) : String :=
  if text.length ≤ 80 then text
  else
    let truncated := (text.data.take 80).asString
    let last_space := listRfind truncated.data ' '
    if last_space > 56 then (truncated.data.take last_space.toNat).asString
    else (pyRstripList truncated.data).asString ++ "..."

/-- Model of `SummaryGenerator._summarize_file_operations`. -/
def summarize_file_operations (file_operations : List FileOperation) : String :=
  if file_operations = [] then ""
  else
    let created := file_operations.filter fun op => op.operation == "write" && op.success
    let modified := file_operations.filter fun op => op.operation == "edit" && op.success
    let created_parts : List String :=
      match created with
      | [] => []
      | [op] => ["created " ++ pathNameJ op.file_path]
      | _ => ["created " ++ natToStr created.length ++ " files"]
    let modified_parts : List String :=
      match modified with
      | [] => []
      | [op] =>
        if created = [] then ["modified " ++ pathNameJ op.file_path]
        else ["modified " ++ natToStr modified.length ++ " files"]
      | _ => ["modified " ++ natToStr modified.length ++ " files"]
    joinSep ", " (created_parts ++ modified_parts)

/-- Model of `SummaryGenerator._summarize_bash_commands`. -/
def summarize_bash_commands (bash_commands : List BashCommand) : String :=
  if bash_commands = [] then ""
  else
    let successful := bash_commands.filter (·.success)
    if successful = [] then ""
    else
      let test_commands := successful.filter fun c =>
        strContains (strLower (asStrD c.command "")) "test"
      let build_commands := successful.filter fun c =>
        ["build", "compile", "npm run", "yarn", "make"].any fun k =>
          strContains (strLower (asStrD c.command "")) k
      let git_commands := successful.filter fun c => strStartsWith (asStrD c.command "") "git"
      let parts : List String :=
        (if test_commands ≠ [] then ["ran tests"] else []) ++
        (if build_commands ≠ [] then ["built project"] else []) ++
        (if git_commands ≠ [] then ["updated git"] else [])
      let parts :=
        if parts = [] ∧ successful.length > 0 then
          ["executed " ++ natToStr successful.length ++ " commands"]
        else parts
      joinSep ", " parts

/-- Model of `SummaryGenerator._summarize_errors`. -/
def summarize_errors (errors : List String) : String :=
  if errors = [] then ""
  else if errors.length = 1 then "resolved 1 error"
  else if errors.length > 1 then "resolved " ++ natToStr errors.length ++ " errors"
  else ""

/-- Model of `SummaryGenerator._generate_notification_context`.  The
file-operation branch always returns when file operations exist (the last
two of a non-empty list are one or two operations), modelled by the
`Option`-valued first stage. -/
def generate_notification_context (a : SessionAnalysis) : String :=
  let from_files : Option String :=
    if a.file_operations ≠ [] then
      match a.file_operations.drop (a.file_operations.length - 2) with
      | [op] => some ("Working on " ++ pathNameJ op.file_path)
      | [] => none
      | _ => some "Working on multiple files"
    else none
  match from_files with
  | some s => s
  | none =>
    if a.user_messages ≠ [] then
      match a.user_messages.getLast? with
      | some last_message =>
        let l := strLower last_message
        if strContains l "database" || strContains l "db" then "Setting up database"
        else if strContains l "test" || strContains l "testing" then "Working on tests"
        else if strContains l "auth" || strContains l "authentication" then
          "Implementing authentication"
        else if strContains l "api" || strContains l "endpoint" then "Building API"
        else ""
      | none => ""
    else ""

/-- Model of `SummaryGenerator._summarize_research_activity`. -/
def summarize_research_activity (a : SessionAnalysis) : String :=
  match a.tool_events.filter fun e => e.tool_name ∈ researchTools with
  | [] => ""
  | [_] => "conducted code analysis"
  | research_events => "analyzed " ++ natToStr research_events.length ++ " code components"

/-- Model of `SummaryGenerator.generate_stop_summary`.  `enabled` is the
`CLAUDE_HOOKS_SUMMARY_ENABLED` switch. -/
def generate_stop_summary (enabled : Bool) (a : SessionAnalysis) : SummaryOut :=
  if !enabled then .choice "" fallback_stop_messages
  else if a.key_accomplishments = [] ∧ a.file_operations = [] ∧ a.bash_commands = [] then
    .choice "" fallback_stop_messages
  else
    let summary_parts :=
      [summarize_file_operations a.file_operations,
       summarize_bash_commands a.bash_commands,
       summarize_errors a.errors].filter (· ≠ "")
    if summary_parts ≠ [] then
      .str (truncate_for_tts ("Completed: " ++ joinSep ", " summary_parts))
    else
      match a.key_accomplishments with
      | [] => .choice "" fallback_stop_messages
      | accs => .str (truncate_for_tts ("Completed: " ++ joinSep ", " (accs.take 2)))

/-- Model of `SummaryGenerator.generate_notification_summary`.  `name_pre`
is the already-resolved personalisation prefix (`"<name>, "` when the
engineer name is set and the 0.3-probability coin came up, else `""`). -/
def generate_notification_summary (enabled : Bool) (name_pre : String)
    (a : SessionAnalysis) : SummaryOut :=
  if !enabled then .choice "" fallback_notification_messages
  else if a.current_context ≠ "" ∧ a.current_context ≠ "Unknown context" then
    .str (truncate_for_tts
      (name_pre ++ "Working on: " ++ a.current_context ++ ", needs your input"))
  else
    let recent_context := generate_notification_context a
    if recent_context ≠ "" then
      .str (truncate_for_tts (name_pre ++ recent_context ++ ", needs your input"))
    else .choice name_pre fallback_notification_messages

/-- Model of `SummaryGenerator.generate_subagent_summary`.  The
file-analysis stage falls through to the accomplishment stage when the
read count is zero, modelled by the `Option`-valued middle stage. -/
def generate_subagent_summary (enabled : Bool) (a : SessionAnalysis) : SummaryOut :=
  if !enabled then .choice "" fallback_subagent_messages
  else
    let research_summary := summarize_research_activity a
    if research_summary ≠ "" then
      .str (truncate_for_tts ("Subagent completed: " ++ research_summary))
    else
      let from_files : Option SummaryOut :=
        if a.file_operations ≠ [] then
          let file_count := (a.file_operations.filter fun op => op.operation == "read").length
          if file_count > 0 then
            some (.str (truncate_for_tts ("Subagent analyzed " ++ natToStr file_count ++ " files")))
          else none
        else none
      match from_files with
      | some o => o
      | none =>
        match a.key_accomplishments with
        | acc :: _ => .str (truncate_for_tts ("Subagent completed: " ++ acc))
        | [] => .choice "" fallback_subagent_messages

/-! ## General lemmas about the embedded operations -/

/-- A string of positive length is not empty. -/
lemma str_ne_empty_of_pos (s : String) (h : 0 < s.length) : s ≠ "" := by
  intro he
  rw [he] at h
  simp [String.length] at h

/-- `_truncate_for_tts` leaves strings within the TTS limit unchanged. -/
lemma truncate_of_short (s : String) (h : s.length ≤ 80) : truncate_for_tts s = s := by
  unfold truncate_for_tts
  rw [if_pos h]

/-- `rfind` misses: a character absent from the list gives `-1`. -/
lemma listRfind_of_not_mem (cs : List Char) (c : Char) (h : c ∉ cs) : listRfind cs c = -1 := by
  induction cs with
  | nil => rfl
  | cons a t ih =>
    have ha : ¬ (a == c) = true := by
      simp only [beq_iff_eq]
      intro he
      exact h (he ▸ List.mem_cons_self a t)
    have ht := ih (fun hm => h (List.mem_cons_of_mem a hm))
    unfold listRfind
    rw [ht]
    simp [ha]

/-- `rfind` is bounded by `n` when the character does not occur past `n`. -/
lemma listRfind_le_of_no_late (cs : List Char) (c : Char) :
    ∀ n : Nat, (∀ x ∈ cs.drop (n + 1), ¬ x = c) → listRfind cs c ≤ (n : Int) := by
  induction cs with
  | nil =>
    intro n _
    simp only [listRfind]
    omega
  | cons a t ih =>
    intro n h
    cases n with
    | zero =>
      have hnot : c ∉ t := by
        intro hm
        exact (h c (by simpa using hm)) rfl
      have ht := listRfind_of_not_mem t c hnot
      simp only [listRfind, ht]
      split
      · omega
      · split <;> omega
    | succ m =>
      have ht := ih m (by
        intro x hx
        exact h x (by simpa using hx))
      simp only [listRfind]
      split
      · omega
      · split <;> omega

/-- `rstrip` is the identity when the last character is not whitespace. -/
lemma rstrip_noop (cs : List Char) (h : ∀ x, cs.getLast? = some x → isPySpace x = false) :
    pyRstripList cs = cs := by
  unfold pyRstripList
  cases hrev : cs.reverse with
  | nil => simp [List.dropWhile, ← hrev]
  | cons a t =>
    have hlast : cs.getLast? = some a := by
      rw [← List.head?_reverse, hrev]
      rfl
    rw [List.dropWhile_cons, h a hlast]
    simp only [Bool.false_eq_true, if_false]
    rw [← hrev, List.reverse_reverse]

/-- The last element of a list with three dots appended is a dot. -/
lemma getLast_append_dots (l : List Char) : (l ++ ['.', '.', '.']).getLast? = some '.' := by
  rw [show (['.', '.', '.'] : List Char) = ['.', '.'] ++ ['.'] from rfl, ← List.append_assoc]
  exact List.getLast?_concat _

/-- `getLast?` of a nonempty list is its `getLastD`. -/
lemma getLast?_of_ne_nil (l : List String) (h : l ≠ []) : l.getLast? = some (l.getLastD "") := by
  rw [List.getLastD_eq_getLast?]
  cases hl : l.getLast? with
  | some x => rfl
  | none =>
    rw [List.getLast?_eq_none_iff] at hl
    exact absurd hl h

/-- Dropping all but the final three elements of a nonempty list leaves a
nonempty list. -/
lemma drop_tail_ne_nil (l : List FileOperation) (k : Nat) (h : l ≠ []) (hk : 0 < k) :
    l.drop (l.length - k) ≠ [] := by
  have hlen : 0 < l.length := List.length_pos.mpr h
  have := List.length_drop (l.length - k) l
  intro hd
  rw [hd] at this
  simp at this
  omega

/-! ## Concrete inputs used by counterexamples and witnesses -/

/-- A successful `Write` file operation on `/tmp/a.txt`. -/
def woA : FileOperation :=
  { operation := "write", file_path := JSON.str "/tmp/a.txt", success := true,
    content_preview := none }

/-- A successful `Edit` file operation on `/tmp/b.txt`. -/
def eoB : FileOperation :=
  { operation := "edit", file_path := JSON.str "/tmp/b.txt", success := true,
    content_preview := none }

/-- A successful tool event with the given tool name and empty input. -/
def mkTool (n : String) : ToolEvent :=
  { tool_name := JSON.str n, tool_input := jobj [], tool_result := JSON.null,
    success := true, timestamp := "", error_message := none }

/-- A read operation with the given success flag. -/
def mkRead (p : String) (ok : Bool) : FileOperation :=
  { operation := "read", file_path := JSON.str p, success := ok, content_preview := none }

/-- C3 counterexample: C3 claims that one successful write plus one
successful edit produce the clause `created <name>, modified <name2>`; the
code reports `modified 1 files` because a single edited file is only named
when no created files exist. -/
theorem c3_counterexample :
    summarize_file_operations [woA, eoB] = "created a.txt, modified 1 files" ∧
    summarize_file_operations [woA, eoB] ≠ "created a.txt, modified b.txt" := by
  constructor
  · decide
  · decide

/-- C3 (amended): with exactly one successful write operation and exactly
one successful edit operation, `_summarize_file_operations` renders
`created <basename>, modified 1 files` — the created file is named and
reported first, but the edited file is only counted, not named, because
created files are present. -/
theorem c3_stop_file_clause (ops : List FileOperation) (w e : FileOperation)
    (hw : ops.filter (fun op => op.operation == "write" && op.success) = [w])
    (he : ops.filter (fun op => op.operation == "edit" && op.success) = [e]) :
    summarize_file_operations ops =
      "created " ++ pathNameJ w.file_path ++ ", modified 1 files" := by
  have hne : ops ≠ [] := by
    intro h
    rw [h] at hw
    simp at hw
  unfold summarize_file_operations
  rw [if_neg hne, hw, he]
  simp only [joinSep]
  rw [String.append_assoc]
  rfl

/-- C3 witness: the amended clause at a concrete write/edit pair. -/
theorem c3_witness :
    summarize_file_operations [woA, eoB] = "created " ++ pathNameJ woA.file_path ++ ", modified 1 files" :=
  c3_stop_file_clause [woA, eoB] woA eoB (by decide) (by decide)

/-- Reassociation helper for rendered strings. -/
lemma str_append_rotate (A B n C : String) :
    A ++ (B ++ n ++ C) = (A ++ B) ++ n ++ C := by
  rw [← String.append_assoc, ← String.append_assoc]

/-- `_truncate_for_tts` on a string over the limit, with the local
variables of the Python body spelled out. -/
lemma truncate_long (s : String) (h : 80 < s.length) :
    truncate_for_tts s =
      (if listRfind (s.data.take 80) ' ' > 56 then
        ((s.data.take 80).take (listRfind (s.data.take 80) ' ').toNat).asString
      else (pyRstripList (s.data.take 80)).asString ++ "...") := by
  unfold truncate_for_tts
  rw [if_neg (by omega)]
  rfl

/-- The 81-character candidate whose only space sits exactly at index 56
of the truncation window. -/
def c4str : String := ((List.replicate 56 'a') ++ [' '] ++ List.replicate 24 'b').asString

set_option maxRecDepth 4000 in
/-- C4 counterexample: C4 claims a space "at or beyond position 56" of the
80-character window triggers the word-boundary cut; the code requires the
space index to exceed 56 (`last_space > 80 * 0.7` with `80 * 0.7 == 56.0`),
so a space exactly at index 56 still yields the ellipsis cut. -/
theorem c4_counterexample :
    80 < c4str.length ∧
    listRfind (c4str.data.take 80) ' ' = (56 : Int) ∧
    truncate_for_tts c4str = (c4str.data.take 80).asString ++ "..." ∧
    truncate_for_tts c4str ≠ ((c4str.data.take 80).take 56).asString := by
  refine ⟨by decide, by decide, by decide, by decide⟩

/-- C4 (amended): strings of length at most 80 are unchanged; for longer
strings the code cuts at 80 and, when the last space of the window sits at
an index STRICTLY beyond 56, cuts back to that space (no ellipsis);
otherwise it right-strips the 80-character cut and appends `...`.  In
particular a 95-character string with no whitespace among the last 24
window characters becomes exactly its first 80 characters plus `...`. -/
theorem c4_truncation (s : String) :
    (s.length ≤ 80 → truncate_for_tts s = s) ∧
    (80 < s.length → ∀ i : Nat, listRfind (s.data.take 80) ' ' = (i : Int) → 56 < i →
      truncate_for_tts s = ((s.data.take 80).take i).asString) ∧
    (80 < s.length → listRfind (s.data.take 80) ' ' ≤ 56 →
      truncate_for_tts s = (pyRstripList (s.data.take 80)).asString ++ "...") ∧
    (s.length = 95 → (∀ c ∈ (s.data.take 80).drop 56, isPySpace c = false) →
      truncate_for_tts s = (s.data.take 80).asString ++ "...") := by
  refine ⟨truncate_of_short s, ?_, ?_, ?_⟩
  · intro h i hi hlt
    rw [truncate_long s h, hi, if_pos (by exact_mod_cast hlt)]
    simp
  · intro h hle
    rw [truncate_long s h, if_neg (by omega)]
  · intro h95 hns
    have h80 : 80 < s.length := by omega
    have hdatalen : s.data.length = 95 := h95
    have hrf : listRfind (s.data.take 80) ' ' ≤ 56 := by
      have hb := listRfind_le_of_no_late (s.data.take 80) ' ' 55 (by
        intro x hx
        intro he
        have := hns x hx
        rw [he] at this
        simp [isPySpace] at this)
      omega
    rw [truncate_long s h80, if_neg (by omega)]
    have hlen80 : (s.data.take 80).length = 80 := by
      rw [List.length_take]
      omega
    have hstrip : pyRstripList (s.data.take 80) = s.data.take 80 := by
      apply rstrip_noop
      intro x hxlast
      have hdrop_ne : (s.data.take 80).drop 56 ≠ [] := by
        intro hd
        have := congrArg List.length hd
        rw [List.length_drop, hlen80] at this
        simp at this
      have hsplit : s.data.take 80 = ((s.data.take 80).take 56) ++ ((s.data.take 80).drop 56) :=
        (List.take_append_drop 56 _).symm
      rw [hsplit, List.getLast?_append_of_ne_nil _ hdrop_ne] at hxlast
      obtain ⟨hne2, hxeq⟩ := List.mem_getLast?_eq_getLast (Option.mem_def.mpr hxlast)
      have hxmem : x ∈ (s.data.take 80).drop 56 := by
        rw [hxeq]
        exact List.getLast_mem hne2
      exact hns x hxmem
    rw [hstrip]

/-- C4 witness: the unchanged-short-string branch at a concrete input. -/
theorem c4_witness : truncate_for_tts "short summary" = "short summary" :=
  (c4_truncation "short summary").1 (by decide)

/-- A session analysis with two research-tool events. -/
def a5ce : SessionAnalysis :=
  { empty_analysis (JSON.str "subagent") with tool_events := [mkTool "Grep", mkTool "Glob"] }

/-- A session analysis with one research-tool event. -/
def a5w : SessionAnalysis :=
  { empty_analysis (JSON.str "subagent") with tool_events := [mkTool "Grep"] }

/-- C5 counterexample: C5 claims the research branch renders `Subagent
completed: conducted code analysis` regardless of the research-tool count;
with two research events the code renders `analyzed 2 code components`. -/
theorem c5_counterexample :
    generate_subagent_summary true a5ce =
      SummaryOut.str "Subagent completed: analyzed 2 code components" ∧
    generate_subagent_summary true a5ce ≠
      SummaryOut.str "Subagent completed: conducted code analysis" := by
  refine ⟨by decide, by decide⟩

/-- C5 (amended): with summaries enabled, exactly one research-tool event
gives `Subagent completed: conducted code analysis`; two or more give
`Subagent completed: analyzed N code components` (whenever the count keeps
the message within the TTS limit — at most 35 digits). -/
theorem c5_subagent_research (a : SessionAnalysis) :
    (∀ r, a.tool_events.filter (fun e => e.tool_name ∈ researchTools) = [r] →
      generate_subagent_summary true a =
        SummaryOut.str "Subagent completed: conducted code analysis") ∧
    (∀ r1 r2 rest, a.tool_events.filter (fun e => e.tool_name ∈ researchTools) = r1 :: r2 :: rest →
      (natToStr (rest.length + 2)).length ≤ 35 →
      generate_subagent_summary true a =
        SummaryOut.str ("Subagent completed: analyzed " ++ natToStr (rest.length + 2) ++
          " code components")) := by
  constructor
  · intro r hr
    simp only [generate_subagent_summary, summarize_research_activity, hr]
    rw [if_pos (by decide : ("conducted code analysis" : String) ≠ "")]
    decide
  · intro r1 r2 rest hr hd
    simp only [generate_subagent_summary, summarize_research_activity, hr, List.length_cons]
    have hlen9 : ("analyzed " : String).length = 9 := by decide
    have hlen16 : (" code components" : String).length = 16 := by decide
    have hne : ("analyzed " ++ natToStr (rest.length + 1 + 1) ++ " code components") ≠ "" := by
      apply str_ne_empty_of_pos
      rw [String.length_append, String.length_append]
      omega
    rw [if_pos hne]
    have hlen20 : ("Subagent completed: " : String).length = 20 := by decide
    have htr : ("Subagent completed: " ++
        ("analyzed " ++ natToStr (rest.length + 1 + 1) ++ " code components")).length ≤ 80 := by
      rw [String.length_append, String.length_append, String.length_append]
      have : (natToStr (rest.length + 1 + 1)).length ≤ 35 := by
        simpa using hd
      omega
    rw [truncate_of_short _ htr, str_append_rotate]
    have : (rest.length + 1 + 1) = rest.length + 2 := by omega
    rw [this]
    rfl

/-- C5 witness: the single-research-event branch at a concrete analysis. -/
theorem c5_witness :
    generate_subagent_summary true a5w =
      SummaryOut.str "Subagent completed: conducted code analysis" :=
  (c5_subagent_research a5w).1 (mkTool "Grep") (by decide)

/-- A session analysis with one successful and one failed read. -/
def a6ce : SessionAnalysis :=
  { empty_analysis (JSON.str "subagent") with
      file_operations := [mkRead "a.py" true, mkRead "b.py" false] }

/-- A session analysis with a single successful read. -/
def a6w : SessionAnalysis :=
  { empty_analysis (JSON.str "subagent") with file_operations := [mkRead "a.py" true] }

/-- C6 counterexample: C6 claims only SUCCESSFUL read operations count;
with one successful and one failed read the code reports `Subagent
analyzed 2 files`, counting the failed read as well. -/
theorem c6_counterexample :
    generate_subagent_summary true a6ce = SummaryOut.str "Subagent analyzed 2 files" ∧
    generate_subagent_summary true a6ce ≠ SummaryOut.str "Subagent analyzed 1 files" := by
  refine ⟨by decide, by decide⟩

/-- C6 (amended): with summaries enabled and no research-tool events, any
analysis with at least one read-kind file operation renders `Subagent
analyzed N files`, where N counts ALL read-kind operations, successful or
not (digit bound keeps the message within the TTS limit). -/
theorem c6_subagent_reads (a : SessionAnalysis)
    (hres : a.tool_events.filter (fun e => e.tool_name ∈ researchTools) = [])
    (hpos : 0 < (a.file_operations.filter fun op => op.operation == "read").length)
    (hd : (natToStr (a.file_operations.filter fun op => op.operation == "read").length).length ≤ 56) :
    generate_subagent_summary true a =
      SummaryOut.str ("Subagent analyzed " ++
        natToStr (a.file_operations.filter fun op => op.operation == "read").length ++
        " files") := by
  have hne : a.file_operations ≠ [] := by
    intro h
    rw [h] at hpos
    simp at hpos
  simp only [generate_subagent_summary, summarize_research_activity, hres]
  rw [if_neg (by simp : ¬ (("" : String) ≠ ""))]
  rw [if_pos hne, if_pos hpos]
  have htr : ("Subagent analyzed " ++
      natToStr (a.file_operations.filter fun op => op.operation == "read").length ++
      " files").length ≤ 80 := by
    rw [String.length_append, String.length_append]
    have h18 : ("Subagent analyzed " : String).length = 18 := by decide
    have h6 : (" files" : String).length = 6 := by decide
    omega
  rw [truncate_of_short _ htr]
  rfl

/-- C6 witness: a single successful read renders `Subagent analyzed 1
files`. -/
theorem c6_witness :
    generate_subagent_summary true a6w = SummaryOut.str "Subagent analyzed 1 files" :=
  (c6_subagent_reads a6w (by decide) (by decide) (by decide)).trans (by decide)

/-- C1 counterexample: C1 claims a missing source and a
corrupted-throughout source differ ONLY in the session identifier; they
also differ in the current-context string (`Unknown context` for the
missing source, `Working on current task` for the corrupted one). -/
theorem c1_counterexample :
    (analyze_transcript none).current_context = "Unknown context" ∧
    (analyze_transcript (some [none])).current_context = "Working on current task" ∧
    (analyze_transcript none).current_context ≠
      (analyze_transcript (some [none])).current_context := by
  refine ⟨by decide, by decide, by decide⟩

/-- C1 (amended): `analyze_transcript` is total by construction; a missing
source and a source whose every line fails to parse both yield analyses
with every list field empty and duration 0.0, differing in exactly two
fields: the diagnostic session identifier (`transcript_not_found` versus
`unknown`) and the current context (`Unknown context` versus `Working on
current task`). -/
theorem c1_empty_analyses (lines : List (Option JSON)) (h : ∀ l ∈ lines, l = none) :
    analyze_transcript (some lines) =
      { session_id := JSON.str "unknown", duration_tenths := 0, user_messages := [],
        tool_events := [], file_operations := [], bash_commands := [], errors := [],
        assistant_responses := [], key_accomplishments := [],
        current_context := "Working on current task" } ∧
    analyze_transcript none =
      { session_id := JSON.str "transcript_not_found", duration_tenths := 0,
        user_messages := [], tool_events := [], file_operations := [], bash_commands := [],
        errors := [], assistant_responses := [], key_accomplishments := [],
        current_context := "Unknown context" } := by
  constructor
  · have hnil : lines.filterMap id = [] := by
      rw [List.filterMap_eq_nil_iff]
      intro a ha
      rw [h a ha]
      rfl
    show analyze_events (lines.filterMap id) = _
    rw [hnil]
    decide
  · decide

/-- C1 witness: the amended statement at a two-line corrupted source. -/
theorem c1_witness :
    analyze_transcript (some [none, none]) =
      { session_id := JSON.str "unknown", duration_tenths := 0, user_messages := [],
        tool_events := [], file_operations := [], bash_commands := [], errors := [],
        assistant_responses := [], key_accomplishments := [],
        current_context := "Working on current task" } ∧
    analyze_transcript none =
      { session_id := JSON.str "transcript_not_found", duration_tenths := 0,
        user_messages := [], tool_events := [], file_operations := [], bash_commands := [],
        errors := [], assistant_responses := [], key_accomplishments := [],
        current_context := "Unknown context" } :=
  c1_empty_analyses [none, none] (by decide)

/-- The message-only form of `_generate_current_context`. -/
lemma gcc_last_no_ops (msgs : List String) (cmds : List BashCommand) (m : String)
    (hm : msgs.getLast? = some m) (hmne : m ≠ "") :
    generate_current_context msgs [] cmds =
      (if m.length > 50 then pyTake m 50 ++ "..." else m) := by
  have hne : msgs ≠ [] := by
    intro h
    rw [h] at hm
    exact Option.noConfusion hm
  have hlast : msgs.getLastD "" = m := by
    rw [List.getLastD_eq_getLast?, hm]
    rfl
  unfold generate_current_context
  rw [if_neg hne, hlast]
  simp only [ne_eq, not_true_eq_false, if_false, ite_false, ite_true, List.append_nil]
  rw [if_pos hmne]
  rfl

/-- The message-plus-files form of `_generate_current_context`. -/
lemma gcc_last_ops (msgs : List String) (ops : List FileOperation) (cmds : List BashCommand)
    (m : String) (hm : msgs.getLast? = some m) (hmne : m ≠ "") (hops : ops ≠ []) :
    generate_current_context msgs ops cmds =
      (if m.length > 50 then pyTake m 50 ++ "..." else m) ++ " - " ++
        ("working on " ++
          joinSep ", " ((ops.drop (ops.length - 3)).map fun op => pathNameJ op.file_path)) := by
  have hne : msgs ≠ [] := by
    intro h
    rw [h] at hm
    exact Option.noConfusion hm
  have hlast : msgs.getLastD "" = m := by
    rw [List.getLastD_eq_getLast?, hm]
    rfl
  have hdrop : ops.drop (ops.length - 3) ≠ [] := drop_tail_ne_nil ops 3 hops (by omega)
  have hmap : ((ops.drop (ops.length - 3)).map fun op => pathNameJ op.file_path) ≠ [] := by
    simpa using hdrop
  unfold generate_current_context
  rw [if_neg hne, hlast, if_pos hops]
  simp only [ne_eq]
  rw [if_pos hmap, if_pos hmne]
  rw [if_pos (by simp : ¬ (([if m.length > 50 then pyTake m 50 ++ "..." else m] : List String) ++
    ["working on " ++ joinSep ", " ((ops.drop (ops.length - 3)).map fun op => pathNameJ op.file_path)]) = [])]
  rfl

/-- C7 (confirmed): `_generate_current_context` returns the sentinel with
no user messages; otherwise the most recent user message truncated at 50
characters (ellipsis when longer), and — when file operations exist — the
clause naming the base filenames of the last up to three operations,
joined to the message part by `" - "` (the filenames themselves are
comma-joined inside the clause). -/
theorem c7_current_context (msgs : List String) (ops : List FileOperation)
    (cmds : List BashCommand) :
    (msgs = [] → generate_current_context msgs ops cmds = "Working on current task") ∧
    (∀ m, msgs.getLast? = some m → m ≠ "" →
      (ops = [] →
        generate_current_context msgs ops cmds =
          (if m.length > 50 then pyTake m 50 ++ "..." else m)) ∧
      (ops ≠ [] →
        generate_current_context msgs ops cmds =
          (if m.length > 50 then pyTake m 50 ++ "..." else m) ++ " - " ++
            ("working on " ++
              joinSep ", " ((ops.drop (ops.length - 3)).map fun op => pathNameJ op.file_path)))) := by
  refine ⟨fun h => by rw [h]; rfl, fun m hm hmne => ⟨fun hops => ?_, fun hops => gcc_last_ops msgs ops cmds m hm hmne hops⟩⟩
  subst hops
  exact gcc_last_no_ops msgs cmds m hm hmne

/-- C7 witness: a short message with two file operations. -/
theorem c7_witness :
    generate_current_context ["Fix the bug"] [woA, eoB] [] =
      "Fix the bug - working on a.txt, b.txt" :=
  (((c7_current_context ["Fix the bug"] [woA, eoB] []).2 "Fix the bug" rfl
    (by decide)).2 (by decide)).trans (by decide)

/-- C8 (confirmed): duration comes from the first and last collected
timestamps, `Z` normalised to `+00:00`, as the rounded difference in
minutes — `pyRoundTenths (t1 - t0)`, the bit-exact model of the CPython
float pipeline `round(total_seconds() / 60, 1)`, in tenths of a minute;
fewer than two timestamps, or a parse failure on either end, give 0.0;
the two example timestamps give 5.5 minutes (55 tenths).  The instance
conjuncts pin the float behaviour where it differs from exact decimal
rounding: 3-second and 9-second differences both round to 0.1 (their
doubles sit just off the 0.05/0.15 decimal ties), and a 15-second
difference is an exact binary tie at 0.25, rounded to the even 0.2.  The
rounded-difference clause assumes both ends agree on offset-awareness:
mixing aware and naive raises `TypeError` in Python, which the same
`except` maps to 0.0. -/
theorem c8_duration (ts : List JSON) :
    (ts.length < 2 → calculate_duration ts = 0) ∧
    (∀ s0 s1 : String, 2 ≤ ts.length →
      ts.head? = some (JSON.str s0) → ts.getLast? = some (JSON.str s1) →
      (∀ aw t0 t1, parseTimestamp (replaceZ s0) = some (aw, t0) →
        parseTimestamp (replaceZ s1) = some (aw, t1) →
        calculate_duration ts = pyRoundTenths (t1 - t0)) ∧
      (parseTimestamp (replaceZ s0) = none → calculate_duration ts = 0) ∧
      (parseTimestamp (replaceZ s1) = none → calculate_duration ts = 0)) ∧
    calculate_duration [JSON.str "2024-01-01T00:00:00Z", JSON.str "2024-01-01T00:05:30Z"] = 55 ∧
    calculate_duration [JSON.str "2024-01-01T00:00:00Z", JSON.str "2024-01-01T00:00:03Z"] = 1 ∧
    calculate_duration [JSON.str "2024-01-01T00:00:00Z", JSON.str "2024-01-01T00:00:09Z"] = 1 ∧
    calculate_duration [JSON.str "2024-01-01T00:00:00Z", JSON.str "2024-01-01T00:00:15Z"] = 2 := by
  refine ⟨?_, ?_, by decide, by decide, by decide, by decide⟩
  · intro h
    unfold calculate_duration
    rw [if_pos h]
  · intro s0 s1 hlen h0 h1
    have hred : calculate_duration ts =
        (match parseTimestamp (replaceZ s0), parseTimestamp (replaceZ s1) with
          | some (a0, t0), some (a1, t1) =>
            if a0 = a1 then pyRoundTenths (t1 - t0) else 0
          | _, _ => 0) := by
      unfold calculate_duration
      rw [if_neg (by omega), h0, h1]
    refine ⟨?_, ?_, ?_⟩
    · intro aw t0 t1 hp0 hp1
      rw [hred, hp0, hp1]
      simp
    · intro hp0
      rw [hred, hp0]
    · intro hp1
      rw [hred, hp1]
      cases parseTimestamp (replaceZ s0) with
      | none => rfl
      | some v =>
        obtain ⟨a, t⟩ := v
        rfl

/-- C8 witness: a single timestamp yields duration 0.0. -/
theorem c8_witness : calculate_duration [JSON.str "2024-01-01T00:00:00Z"] = 0 :=
  (c8_duration [JSON.str "2024-01-01T00:00:00Z"]).1 (by decide)

/-! ## Field-preservation lemmas for the event loop -/

/-- The user branch never touches the session identifier. -/
lemma processUser_session_id (st : AnalyzeState) (e : JSON) :
    (processUser st e).session_id = st.session_id := by
  unfold processUser
  repeat' split
  all_goals rfl

/-- One assistant content item never touches the session identifier. -/
lemma processItem_session_id (all : List JSON) (st : AnalyzeState) (item : JSON) :
    (processItem all st item).session_id = st.session_id := by
  simp only [processItem]
  repeat' split
  all_goals rfl

/-- Folding assistant content items never touches the session identifier. -/
lemma foldItems_session_id (all : List JSON) :
    ∀ (items : List JSON) (st : AnalyzeState),
      (items.foldl (processItem all) st).session_id = st.session_id := by
  intro items
  induction items with
  | nil => intro st; rfl
  | cons i t ih =>
    intro st
    rw [List.foldl_cons, ih, processItem_session_id]

/-- The assistant branch never touches the session identifier. -/
lemma processAssistant_session_id (all : List JSON) (st : AnalyzeState) (e : JSON) :
    (processAssistant all st e).session_id = st.session_id := by
  unfold processAssistant
  split
  · split
    · rw [foldItems_session_id]
    · rfl
  · rfl

/-- The system branch never touches the session identifier. -/
lemma processSystem_session_id (st : AnalyzeState) (e : JSON) :
    (processSystem st e).session_id = st.session_id := by
  unfold processSystem
  repeat' split
  all_goals rfl

/-- The dispatch never touches the session identifier. -/
lemma dispatchEvent_session_id (all : List JSON) (st : AnalyzeState) (e : JSON) :
    (dispatchEvent all st e).session_id = st.session_id := by
  unfold dispatchEvent
  split
  · exact processUser_session_id st e
  · split
    · exact processAssistant_session_id all st e
    · split
      · exact processSystem_session_id st e
      · rfl

/-- One loop iteration updates the session identifier exactly when the
event carries the `sessionId` key. -/
lemma processEvent_session_id (all : List JSON) (st : AnalyzeState) (e : JSON) :
    (processEvent all st e).session_id = (lookupJ e "sessionId").getD st.session_id := by
  simp only [processEvent]
  rw [dispatchEvent_session_id]
  cases hsid : lookupJ e "sessionId" with
  | some v => rfl
  | none =>
    show (if pyTruthy (lookupD e "timestamp" (JSON.str "")) then _ else st).session_id = _
    split <;> rfl

/-- `Option.or` then default equals nested defaults. -/
lemma option_or_getD (a b : Option JSON) (d : JSON) : (a.or b).getD d = a.getD (b.getD d) := by
  cases a <;> rfl

/-- `findSome?` over an append scans the left part first. -/
lemma findSome?_append (l1 l2 : List JSON) (f : JSON → Option JSON) :
    (l1 ++ l2).findSome? f = (l1.findSome? f).or (l2.findSome? f) := by
  induction l1 with
  | nil =>
    rw [List.nil_append]
    cases l2.findSome? f <;> rfl
  | cons a t ih =>
    rw [List.cons_append, List.findSome?_cons, List.findSome?_cons]
    cases f a with
    | some b => rfl
    | none => exact ih

/-- A singleton `findSome?` is the function value. -/
lemma findSome?_singleton (f : JSON → Option JSON) (e : JSON) :
    ([e].findSome? f) = f e := by
  rw [List.findSome?_cons]
  cases f e <;> rfl

/-- The whole loop keeps the `sessionId` of the LAST carrying event. -/
lemma foldl_session_id (all : List JSON) :
    ∀ (evs : List JSON) (st : AnalyzeState),
      (evs.foldl (processEvent all) st).session_id =
        ((evs.reverse.findSome? fun e => lookupJ e "sessionId").getD st.session_id) := by
  intro evs
  induction evs with
  | nil => intro st; rfl
  | cons e t ih =>
    intro st
    rw [List.foldl_cons, ih, List.reverse_cons, findSome?_append, option_or_getD,
      findSome?_singleton, processEvent_session_id]

/-- C10 (confirmed): the session identifier of an analysis is the
`sessionId` value of the last event carrying that key (later occurrences
overwrite earlier ones), and `unknown` when no event carries one. -/
theorem c10_session_id (events : List JSON) :
    (analyze_events events).session_id =
      (events.reverse.findSome? fun e => lookupJ e "sessionId").getD (JSON.str "unknown") := by
  show (finalState events).session_id = _
  unfold finalState
  rw [foldl_session_id]
  rfl

/-- `getLast?` of a cons in terms of `getLastD`. -/
lemma getLast?_cons_eq (a : JSON) (l : List JSON) : (a :: l).getLast? = some (l.getLastD a) := by
  induction l generalizing a with
  | nil => rfl
  | cons b t ih => rw [List.getLast?_cons_cons, ih b, List.getLastD_cons]

/-- The correlation scan of `_extract_tool_event`, characterised: the
running result is the last selected match so far, the success flag
remembers whether any selected match carried a truthy error flag, and the
error message is the repr of the last erroring selected match. -/
lemma scan_fold (tid : JSON) (evs : List JSON) : ∀ st : ToolScan,
    evs.foldl (scanStep tid) st =
      { tool_result := (evs.filterMap (eventMatch tid)).getLastD st.tool_result,
        success := st.success && !((evs.filterMap (eventMatch tid)).any isErrObj),
        error_message :=
          match ((evs.filterMap (eventMatch tid)).filter isErrObj).getLast? with
          | some r => some (pyRepr r)
          | none => st.error_message } := by
  induction evs with
  | nil =>
    intro st
    simp
  | cons e t ih =>
    intro st
    rw [List.foldl_cons, List.filterMap_cons]
    cases hme : eventMatch tid e with
    | none =>
      have hstep : scanStep tid st e = st := by
        unfold scanStep
        rw [hme]
      rw [hstep]
      exact ih st
    | some r =>
      cases hr : isErrObj r with
      | false =>
        have hstep : scanStep tid st e = { st with tool_result := r } := by
          simp only [scanStep, hme]
          rw [if_neg (by simp [hr])]
        rw [hstep, ih]
        have h1 : (r :: t.filterMap (eventMatch tid)).getLastD st.tool_result =
            (t.filterMap (eventMatch tid)).getLastD r := List.getLastD_cons st.tool_result r _
        have h2 : (r :: t.filterMap (eventMatch tid)).any isErrObj =
            (t.filterMap (eventMatch tid)).any isErrObj := by
          rw [List.any_cons, hr, Bool.false_or]
        have h3 : (r :: t.filterMap (eventMatch tid)).filter isErrObj =
            (t.filterMap (eventMatch tid)).filter isErrObj := by
          rw [List.filter_cons_of_neg (by simp [hr])]
        rw [h1, h2, h3]
      | true =>
        have hstep : scanStep tid st e =
            { tool_result := r, success := false, error_message := some (pyRepr r) } := by
          simp only [scanStep, hme]
          rw [if_pos hr]
        rw [hstep, ih]
        have h1 : (r :: t.filterMap (eventMatch tid)).getLastD st.tool_result =
            (t.filterMap (eventMatch tid)).getLastD r := List.getLastD_cons st.tool_result r _
        have h2 : (r :: t.filterMap (eventMatch tid)).any isErrObj = true := by
          rw [List.any_cons, hr, Bool.true_or]
        have h3 : (r :: t.filterMap (eventMatch tid)).filter isErrObj =
            r :: (t.filterMap (eventMatch tid)).filter isErrObj :=
          List.filter_cons_of_pos hr
        rw [h1, h2, h3, getLast?_cons_eq]
        cases hfl : ((t.filterMap (eventMatch tid)).filter isErrObj).getLast? with
        | none =>
          have hemp : (t.filterMap (eventMatch tid)).filter isErrObj = [] :=
            List.getLast?_eq_none_iff.mp hfl
          rw [hemp]
          simp
        | some x =>
          have hx : ((t.filterMap (eventMatch tid)).filter isErrObj).getLastD r = x := by
            rw [List.getLastD_eq_getLast?, hfl]
            rfl
          rw [hx]
          simp

/-- C2 (amended): the tool result of an extracted tool event is the
content of the first matching entry of the LAST event containing one (the
inner `break` leaves the outer scan running, so later events overwrite
earlier ones — not the first match as claimed); the success flag is false
exactly when some event's selected entry is a mapping with a truthy
`is_error` flag, and the error message is the string form of the last such
erroring entry. -/
theorem c2_tool_result_correlation (tool_item : JSON) (all_events : List JSON) :
    (extract_tool_event tool_item all_events).tool_result =
      (all_events.filterMap (eventMatch (lookupD tool_item "id" (JSON.str "")))).getLastD
        JSON.null ∧
    (extract_tool_event tool_item all_events).success =
      !((all_events.filterMap (eventMatch (lookupD tool_item "id" (JSON.str "")))).any
        isErrObj) ∧
    (extract_tool_event tool_item all_events).error_message =
      (((all_events.filterMap (eventMatch (lookupD tool_item "id" (JSON.str "")))).filter
        isErrObj).getLast?).map pyRepr := by
  have h := scan_fold (lookupD tool_item "id" (JSON.str "")) all_events
    { tool_result := JSON.null, success := true, error_message := none }
  refine ⟨?_, ?_, ?_⟩
  · show ((all_events.foldl (scanStep (lookupD tool_item "id" (JSON.str "")))
      { tool_result := JSON.null, success := true, error_message := none }).tool_result) = _
    rw [h]
  · show ((all_events.foldl (scanStep (lookupD tool_item "id" (JSON.str "")))
      { tool_result := JSON.null, success := true, error_message := none }).success) = _
    rw [h]
    exact Bool.true_and _
  · show ((all_events.foldl (scanStep (lookupD tool_item "id" (JSON.str "")))
      { tool_result := JSON.null, success := true, error_message := none }).error_message) = _
    rw [h]
    cases ((all_events.filterMap (eventMatch (lookupD tool_item "id" (JSON.str "")))).filter
      isErrObj).getLast? <;> rfl

/-- The `tool_use` item used by the C2 counterexample. -/
def c2item : JSON :=
  jobj [("type", JSON.str "tool_use"), ("id", JSON.str "t1"), ("name", JSON.str "Read"),
    ("input", jobj [])]

/-- A user event relaying a result for invocation `t1`. -/
def c2event (c : String) : JSON :=
  jobj [("type", JSON.str "user"),
    ("message", jobj [("role", JSON.str "user"),
      ("content", jarr [jobj [("tool_use_id", JSON.str "t1"), ("content", JSON.str c)]])])]

/-- C2 counterexample: C2 claims the FIRST matching entry in event order
becomes the tool result; with two matching events the code keeps the
second (last) one. -/
theorem c2_counterexample :
    (extract_tool_event c2item [c2event "first result", c2event "second result"]).tool_result =
      JSON.str "second result" ∧
    (extract_tool_event c2item [c2event "first result", c2event "second result"]).tool_result ≠
      JSON.str "first result" := by
  refine ⟨by decide, by decide⟩

/-! ## User-message invariants of the event loop (for C9) -/

/-- One assistant content item never touches the user messages. -/
lemma processItem_user_messages (all : List JSON) (st : AnalyzeState) (item : JSON) :
    (processItem all st item).user_messages = st.user_messages := by
  simp only [processItem]
  repeat' split
  all_goals rfl

/-- Folding assistant content items never touches the user messages. -/
lemma foldItems_user_messages (all : List JSON) :
    ∀ (items : List JSON) (st : AnalyzeState),
      (items.foldl (processItem all) st).user_messages = st.user_messages := by
  intro items
  induction items with
  | nil => intro st; rfl
  | cons i t ih =>
    intro st
    rw [List.foldl_cons, ih, processItem_user_messages]

/-- The assistant branch never touches the user messages. -/
lemma processAssistant_user_messages (all : List JSON) (st : AnalyzeState) (e : JSON) :
    (processAssistant all st e).user_messages = st.user_messages := by
  unfold processAssistant
  split
  · split
    · rw [foldItems_user_messages]
    · rfl
  · rfl

/-- The system branch never touches the user messages. -/
lemma processSystem_user_messages (st : AnalyzeState) (e : JSON) :
    (processSystem st e).user_messages = st.user_messages := by
  unfold processSystem
  repeat' split
  all_goals rfl

/-- The user branch either keeps the user messages or appends one
stripped, non-blank message. -/
lemma processUser_user_messages (st : AnalyzeState) (e : JSON) :
    (processUser st e).user_messages = st.user_messages ∨
    ∃ c : String, pyStrip c ≠ "" ∧
      (processUser st e).user_messages = st.user_messages ++ [pyStrip c] := by
  unfold processUser
  split
  · split
    · split
      · rename_i c heq
        split
        · rename_i hc
          split
          · exact Or.inl rfl
          · exact Or.inr ⟨c, hc, rfl⟩
        · exact Or.inl rfl
      · exact Or.inl rfl
    · exact Or.inl rfl
  · exact Or.inl rfl

/-- The dispatch either keeps the user messages or appends one stripped,
non-blank message. -/
lemma dispatchEvent_user_messages (all : List JSON) (st : AnalyzeState) (e : JSON) :
    (dispatchEvent all st e).user_messages = st.user_messages ∨
    ∃ c : String, pyStrip c ≠ "" ∧
      (dispatchEvent all st e).user_messages = st.user_messages ++ [pyStrip c] := by
  unfold dispatchEvent
  split
  · exact processUser_user_messages st e
  · split
    · exact Or.inl (processAssistant_user_messages all st e)
    · split
      · exact Or.inl (processSystem_user_messages st e)
      · exact Or.inl rfl

/-- One loop iteration either keeps the user messages or appends one
stripped, non-blank message. -/
lemma processEvent_user_messages (all : List JSON) (st : AnalyzeState) (e : JSON) :
    (processEvent all st e).user_messages = st.user_messages ∨
    ∃ c : String, pyStrip c ≠ "" ∧
      (processEvent all st e).user_messages = st.user_messages ++ [pyStrip c] := by
  simp only [processEvent]
  cases hsid : lookupJ e "sessionId" with
  | none =>
    by_cases htr : pyTruthy (lookupD e "timestamp" (JSON.str "")) = true
    · rw [if_pos htr]
      exact dispatchEvent_user_messages all _ e
    · rw [if_neg htr]
      exact dispatchEvent_user_messages all _ e
  | some v =>
    by_cases htr : pyTruthy (lookupD e "timestamp" (JSON.str "")) = true
    · rw [if_pos htr]
      exact dispatchEvent_user_messages all _ e
    · rw [if_neg htr]
      exact dispatchEvent_user_messages all _ e

/-- Messages collected by the loop are never empty strings. -/
lemma foldl_user_messages_ok (all : List JSON) :
    ∀ (evs : List JSON) (st : AnalyzeState), (∀ m ∈ st.user_messages, m ≠ "") →
      ∀ m ∈ (evs.foldl (processEvent all) st).user_messages, m ≠ "" := by
  intro evs
  induction evs with
  | nil => intro st h; exact h
  | cons e t ih =>
    intro st h
    rw [List.foldl_cons]
    apply ih
    rcases processEvent_user_messages all st e with heq | ⟨c, hc, heq⟩
    · rw [heq]
      exact h
    · rw [heq]
      intro m hm
      rcases List.mem_append.mp hm with hmem | hmem
      · exact h m hmem
      · rw [List.mem_singleton.mp hmem]
        exact hc

/-- Messages of the final loop state are never empty strings. -/
lemma finalState_user_messages_ok (evs : List JSON) :
    ∀ m ∈ (finalState evs).user_messages, m ≠ "" := by
  apply foldl_user_messages_ok
  intro m hm
  simp [initState] at hm

/-- The `getLastD` of a nonempty list is a member. -/
lemma getLastD_mem (l : List String) (h : l ≠ []) : ∀ d, l.getLastD d ∈ l := by
  induction l with
  | nil => exact absurd rfl h
  | cons a t ih =>
    intro d
    cases ht : t with
    | nil => simp
    | cons b t2 =>
      rw [List.getLastD_cons]
      rw [← ht]
      exact List.mem_cons_of_mem a (ih (by rw [ht]; exact List.cons_ne_nil b t2) a)

/-- A nonempty string has positive length. -/
lemma str_pos_of_ne_empty (s : String) (h : s ≠ "") : 0 < s.length := by
  rcases s with ⟨data⟩
  cases data with
  | nil => exact absurd rfl h
  | cons c t => simp [String.length]

/-- `String.data` distributes over append. -/
lemma string_data_append (a b : String) : (a ++ b).data = a.data ++ b.data := rfl

/-- With every collected message non-blank, the derived context is never
the empty string. -/
lemma ctx_ne_empty (msgs : List String) (ops : List FileOperation) (cmds : List BashCommand)
    (h : ∀ m ∈ msgs, m ≠ "") : generate_current_context msgs ops cmds ≠ "" := by
  by_cases hm : msgs = []
  · rw [hm]
    exact (by decide : ("Working on current task" : String) ≠ "")
  · have hlast := getLast?_of_ne_nil msgs hm
    have hmne : msgs.getLastD "" ≠ "" := h _ (getLastD_mem msgs hm "")
    by_cases hops : ops = []
    · subst hops
      rw [gcc_last_no_ops msgs cmds _ hlast hmne]
      split
      · apply str_ne_empty_of_pos
        rw [String.length_append]
        have hdots : ("..." : String).length = 3 := by decide
        omega
      · exact hmne
    · rw [gcc_last_ops msgs ops cmds _ hlast hmne hops]
      apply str_ne_empty_of_pos
      rw [String.length_append, String.length_append]
      have hsep : (" - " : String).length = 3 := by decide
      omega

/-- With every collected message non-blank, the derived context equals the
sentinel `Unknown context` only for an analysis with no file operations
whose most recent message is literally `Unknown context`. -/
lemma ctx_unknown (msgs : List String) (ops : List FileOperation) (cmds : List BashCommand)
    (h : ∀ m ∈ msgs, m ≠ "")
    (hu : generate_current_context msgs ops cmds = "Unknown context") :
    ops = [] ∧ msgs.getLast? = some "Unknown context" := by
  by_cases hm : msgs = []
  · rw [hm] at hu
    have hlit : ("Working on current task" : String) = "Unknown context" := hu
    exact absurd hlit (by decide)
  · have hlast := getLast?_of_ne_nil msgs hm
    have hmne : msgs.getLastD "" ≠ "" := h _ (getLastD_mem msgs hm "")
    by_cases hops : ops = []
    · subst hops
      rw [gcc_last_no_ops msgs cmds _ hlast hmne] at hu
      refine ⟨rfl, ?_⟩
      by_cases hlen : (msgs.getLastD "").length > 50
      · rw [if_pos hlen] at hu
        exfalso
        have hd := congrArg (fun s => s.data.getLast?) hu
        simp only at hd
        rw [string_data_append] at hd
        have hdots : (pyTake (msgs.getLastD "") 50).data ++ ("..." : String).data =
            (pyTake (msgs.getLastD "") 50).data ++ ['.', '.', '.'] := rfl
        rw [hdots, getLast_append_dots] at hd
        have ht : ("Unknown context" : String).data.getLast? = some 't' := by decide
        rw [ht] at hd
        exact absurd hd (by decide)
      · rw [if_neg hlen] at hu
        rw [hlast, hu]
    · exfalso
      rw [gcc_last_ops msgs ops cmds _ hlast hmne hops] at hu
      have hd := congrArg String.data hu
      rw [string_data_append, string_data_append] at hd
      have hmem : '-' ∈ ((if (msgs.getLastD "").length > 50
            then pyTake (msgs.getLastD "") 50 ++ "..." else msgs.getLastD "").data ++
          (" - " : String).data) ++
          ("working on " ++
            joinSep ", " ((ops.drop (ops.length - 3)).map fun op => pathNameJ op.file_path)).data := by
        apply List.mem_append_left
        apply List.mem_append_right
        decide
      rw [hd] at hmem
      exact absurd hmem (by decide)

/-- The user event whose message text is literally the sentinel. -/
def c9event : JSON :=
  jobj [("type", JSON.str "user"),
    ("message", jobj [("role", JSON.str "user"), ("content", JSON.str "Unknown context")])]

/-- C9 counterexample: C9 claims every non-empty analysis has a current
context different from `Unknown context`; a transcript whose (only) user
message is literally `Unknown context` produces a non-empty analysis whose
current context IS the sentinel, so the primary branch is skipped. -/
theorem c9_counterexample :
    (analyze_transcript (some [some c9event])).user_messages = ["Unknown context"] ∧
    (analyze_transcript (some [some c9event])).current_context = "Unknown context" := by
  refine ⟨by decide, by decide⟩

/-- C9 (amended): with summaries enabled, the notification summary never
uses the keyword-topic secondary context: for every analysis produced by
`analyze_transcript`, either the primary `Working on: <context>, needs
your input` branch is taken, or the secondary derivation returns the empty
string and a random fallback (with the name prefix) is used.  The claimed
justification is repaired: a non-empty analysis can reach the secondary
branch (exactly when its last user message is literally `Unknown context`
and it has no file operations), but that message matches no topic keyword,
so the keyword topics remain unreachable. -/
theorem c9_no_keyword_topic (source : TranscriptSource) (name_pre : String) :
    generate_notification_summary true name_pre (analyze_transcript source) =
      SummaryOut.str (truncate_for_tts (name_pre ++ "Working on: " ++
        (analyze_transcript source).current_context ++ ", needs your input")) ∨
    generate_notification_summary true name_pre (analyze_transcript source) =
      SummaryOut.choice name_pre fallback_notification_messages := by
  cases source with
  | none =>
    right
    rfl
  | some lines =>
    by_cases hctx : (analyze_transcript (some lines)).current_context = "Unknown context"
    · right
      have hmsgs_ok : ∀ m ∈ (finalState (lines.filterMap id)).user_messages, m ≠ "" :=
        finalState_user_messages_ok (lines.filterMap id)
      have hctx' : generate_current_context (finalState (lines.filterMap id)).user_messages
          (finalState (lines.filterMap id)).file_operations
          (finalState (lines.filterMap id)).bash_commands = "Unknown context" := hctx
      obtain ⟨hops, hlast⟩ := ctx_unknown _ _ _ hmsgs_ok hctx'
      have hops' : (analyze_transcript (some lines)).file_operations = [] := hops
      have hlast' : (analyze_transcript (some lines)).user_messages.getLast? =
          some "Unknown context" := hlast
      have hmne2 : (analyze_transcript (some lines)).user_messages ≠ [] := by
        intro hnil
        rw [hnil] at hlast'
        exact Option.noConfusion hlast'
      have hgnc : generate_notification_context (analyze_transcript (some lines)) = "" := by
        simp only [generate_notification_context]
        rw [if_neg (by simp [hops'])]
        rw [if_pos hmne2, hlast']
        decide
      simp only [generate_notification_summary]
      rw [if_neg (show ¬((!true) = true) by decide)]
      rw [if_neg (show ¬((analyze_transcript (some lines)).current_context ≠ "" ∧
        (analyze_transcript (some lines)).current_context ≠ "Unknown context") from
        fun hand => hand.2 hctx)]
      rw [hgnc]
      rfl
    · left
      have hne : (analyze_transcript (some lines)).current_context ≠ "" :=
        ctx_ne_empty (finalState (lines.filterMap id)).user_messages
          (finalState (lines.filterMap id)).file_operations
          (finalState (lines.filterMap id)).bash_commands
          (finalState_user_messages_ok (lines.filterMap id))
      simp only [generate_notification_summary]
      rw [if_neg (show ¬((!true) = true) by decide)]
      rw [if_pos (show (analyze_transcript (some lines)).current_context ≠ "" ∧
        (analyze_transcript (some lines)).current_context ≠ "Unknown context" from ⟨hne, hctx⟩)]
